import Mathlib

set_option autoImplicit false

/-!
Verification of the fitness-app authentication backend.

The repository contains two generations of the same HTTP auth service:

* `src/src/...` — the repository-pattern generation (`api/auth.py`,
  `services/cognito_service.py`, `database/user_repository.py`,
  `models/auth_models.py`), embedded below in namespace `Gen1`;
* `src/backend/app/...` — the FastAPI/SQLModel generation
  (`api/v1/auth.py`, `api/v1/onboarding.py`, `services/cognito_service.py`,
  `core/security.py`, `models/user.py`, `schemas/...`), embedded in
  namespace `Gen2`.

Identity-provider (AWS Cognito) and database calls are modelled as oracle
parameters: the caller supplies the provider outcome for the request the
code builds, and database commits take an explicit success/fault outcome.
Python dictionaries with optional keys are modelled as structures of
`Option` fields; Python truthiness of optional strings is modelled
explicitly.  Machine integers do not occur; SHA-256 words are `Nat` taken
modulo `2 ^ 32`.
-/

namespace FitnessAuth

/-! ## Byte-level primitives: UTF-8, SHA-256, HMAC, Base64

These embed the computation performed by Python's `bytes(s, 'utf-8')`,
`hashlib.sha256`, `hmac.new(..., digestmod=hashlib.sha256)` and
`base64.b64encode`, which `CognitoService._get_secret_hash` composes.
Bytes are `Nat` values < 256, words are `Nat` values < 2^32. -/

/-- Truncate to a 32-bit word. -/
def w32 (n : Nat) : Nat := n % 4294967296

/-- Right rotation of a 32-bit word. -/
def rotr (x n : Nat) : Nat := w32 ((x >>> n) ||| (x <<< (32 - n)))

/-- UTF-8 encoding of one character (the `bytes(s, 'utf-8')` encoding). -/
def encodeCharUtf8 (c : Char) : List Nat :=
  let n := c.toNat
  if n < 128 then [n]
  else if n < 2048 then [192 + n / 64, 128 + n % 64]
  else if n < 65536 then [224 + n / 4096, 128 + (n / 64) % 64, 128 + n % 64]
  else [240 + n / 262144, 128 + (n / 4096) % 64, 128 + (n / 64) % 64, 128 + n % 64]

/-- UTF-8 byte sequence of a string, as in `bytes(s, 'utf-8')`. -/
def utf8Bytes (s : String) : List Nat := (s.data.map encodeCharUtf8).flatten

/-- The SHA-256 round constants (decimal). -/
def sha256K : List Nat :=
  [1116352408, 1899447441, 3049323471, 3921009573, 961987163, 1508970993,
   2453635748, 2870763221, 3624381080, 310598401, 607225278, 1426881987,
   1925078388, 2162078206, 2614888103, 3248222580, 3835390401, 4022224774,
   264347078, 604807628, 770255983, 1249150122, 1555081692, 1996064986,
   2554220882, 2821834349, 2952996808, 3210313671, 3336571891, 3584528711,
   113926993, 338241895, 666307205, 773529912, 1294757372, 1396182291,
   1695183700, 1986661051, 2177026350, 2456956037, 2730485921, 2820302411,
   3259730800, 3345764771, 3516065817, 3600352804, 4094571909, 275423344,
   430227734, 506948616, 659060556, 883997877, 958139571, 1322822218,
   1537002063, 1747873779, 1955562222, 2024104815, 2227730452, 2361852424,
   2428436474, 2756734187, 3204031479, 3329325298]

/-- State of the eight SHA-256 working registers. -/
structure H8 where
  a : Nat
  b : Nat
  c : Nat
  d : Nat
  e : Nat
  f : Nat
  g : Nat
  h : Nat
deriving DecidableEq, Repr

/-- The SHA-256 initial hash value (decimal). -/
def sha256Init : H8 :=
  ⟨1779033703, 3144134277, 1013904242, 2773480762,
   1359893119, 2600822924, 528734635, 1541459225⟩

/-- Big-endian 32-bit word at word index `t` of a 64-byte block. -/
def blockWord (block : List Nat) (t : Nat) : Nat :=
  (block.getD (4 * t) 0) * 16777216 + (block.getD (4 * t + 1) 0) * 65536 +
    (block.getD (4 * t + 2) 0) * 256 + block.getD (4 * t + 3) 0

/-- The 64-entry SHA-256 message schedule of one block. -/
def msgSchedule (block : List Nat) : Array Nat :=
  (List.range 64).foldl
    (fun w t =>
      if t < 16 then w.push (blockWord block t)
      else
        let x15 := w.getD (t - 15) 0
        let x2 := w.getD (t - 2) 0
        let s0 := (rotr x15 7) ^^^ (rotr x15 18) ^^^ (x15 >>> 3)
        let s1 := (rotr x2 17) ^^^ (rotr x2 19) ^^^ (x2 >>> 10)
        w.push (w32 (w.getD (t - 16) 0 + s0 + w.getD (t - 7) 0 + s1)))
    #[]

/-- One SHA-256 compression step at round `t`. -/
def sha256Round (w : Array Nat) (s : H8) (t : Nat) : H8 :=
  let bigS1 := (rotr s.e 6) ^^^ (rotr s.e 11) ^^^ (rotr s.e 25)
  let ch := (s.e &&& s.f) ^^^ ((s.e ^^^ 4294967295) &&& s.g)
  let temp1 := w32 (s.h + bigS1 + ch + sha256K.getD t 0 + w.getD t 0)
  let bigS0 := (rotr s.a 2) ^^^ (rotr s.a 13) ^^^ (rotr s.a 22)
  let maj := (s.a &&& s.b) ^^^ (s.a &&& s.c) ^^^ (s.b &&& s.c)
  let temp2 := w32 (bigS0 + maj)
  ⟨w32 (temp1 + temp2), s.a, s.b, s.c, w32 (s.d + temp1), s.e, s.f, s.g⟩

/-- SHA-256 compression of one 64-byte block into the running hash. -/
def sha256Compress (hs : H8) (block : List Nat) : H8 :=
  let w := msgSchedule block
  let s := (List.range 64).foldl (sha256Round w) hs
  ⟨w32 (hs.a + s.a), w32 (hs.b + s.b), w32 (hs.c + s.c), w32 (hs.d + s.d),
   w32 (hs.e + s.e), w32 (hs.f + s.f), w32 (hs.g + s.g), w32 (hs.h + s.h)⟩

/-- Big-endian bytes of a 32-bit word. -/
def wordBytesBE (w : Nat) : List Nat :=
  [w / 16777216 % 256, w / 65536 % 256, w / 256 % 256, w % 256]

/-- Digest bytes of a final SHA-256 state. -/
def digestBytes (s : H8) : List Nat :=
  wordBytesBE s.a ++ wordBytesBE s.b ++ wordBytesBE s.c ++ wordBytesBE s.d ++
    wordBytesBE s.e ++ wordBytesBE s.f ++ wordBytesBE s.g ++ wordBytesBE s.h

/-- SHA-256 padding: a `0x80` byte, zeros to 56 mod 64, then the bit length
big-endian in 8 bytes. -/
def sha256Pad (msg : List Nat) : List Nat :=
  let len := msg.length
  let zeros := (120 - (len + 1) % 64) % 64
  let bitLen := len * 8
  msg ++ [128] ++ List.replicate zeros 0 ++
    [bitLen / 72057594037927936 % 256, bitLen / 281474976710656 % 256,
     bitLen / 1099511627776 % 256, bitLen / 4294967296 % 256,
     bitLen / 16777216 % 256, bitLen / 65536 % 256, bitLen / 256 % 256, bitLen % 256]

/-- SHA-256 of a byte sequence (the `hashlib.sha256(...).digest()` bytes). -/
def sha256 (msg : List Nat) : List Nat :=
  let padded := sha256Pad msg
  let nBlocks := padded.length / 64
  digestBytes
    ((List.range nBlocks).foldl
      (fun hs i => sha256Compress hs ((padded.drop (64 * i)).take 64)) sha256Init)

/-- HMAC-SHA256 (the digest computed by
`hmac.new(key, message, digestmod=hashlib.sha256).digest()`). -/
def hmacSha256 (key msg : List Nat) : List Nat :=
  let k1 := if 64 < key.length then sha256 key else key
  let k0 := k1 ++ List.replicate (64 - k1.length) 0
  let ipadded := k0.map (fun b => b ^^^ 54)
  let opadded := k0.map (fun b => b ^^^ 92)
  sha256 (opadded ++ sha256 (ipadded ++ msg))

/-- The Base64 alphabet. -/
def b64Alphabet : List Char :=
  "ABCDEFGHIJKLMNOPQRSTUVWXYZabcdefghijklmnopqrstuvwxyz0123456789+/".data

/-- Base64 character for a 6-bit value. -/
def b64Char (n : Nat) : Char := b64Alphabet.getD n '='

/-- Characters of the standard Base64 encoding of a byte sequence. -/
def b64encodeChars : List Nat → List Char
  | [] => []
  | [a] =>
      let n := a * 65536
      [b64Char (n / 262144 % 64), b64Char (n / 4096 % 64), '=', '=']
  | [a, b] =>
      let n := a * 65536 + b * 256
      [b64Char (n / 262144 % 64), b64Char (n / 4096 % 64), b64Char (n / 64 % 64), '=']
  | a :: b :: c :: rest =>
      let n := a * 65536 + b * 256 + c
      b64Char (n / 262144 % 64) :: b64Char (n / 4096 % 64) :: b64Char (n / 64 % 64) ::
        b64Char (n % 64) :: b64encodeChars rest

/-- Standard Base64 encoding as a string, as in
`base64.b64encode(...).decode()`. -/
def b64encode (l : List Nat) : String := String.mk (b64encodeChars l)

/-! ## Shared provider model

Both generations wrap the same `boto3` Cognito client.  A provider call is
modelled by an oracle function from the request parameters the code builds
to an outcome: a typed response, a `botocore.exceptions.ClientError`
carrying the provider error code and message, or any other exception. -/

/-- Outcome of one network call to the identity provider. -/
inductive ProviderCall (α : Type) where
  | ok (resp : α)
  | clientError (code message : String)
  | exn (message : String)
deriving DecidableEq

/-- Response of Cognito `sign_up`. -/
structure SignUpResponse where
  UserSub : String
  UserConfirmed : Option Bool := none
  CodeDeliveryDetails : Option String := none
deriving DecidableEq

/-- The `AuthenticationResult` object of an `initiate_auth` response.
`RefreshToken` is optional: Cognito omits it in the refresh flow. -/
structure AuthenticationResult where
  AccessToken : String
  IdToken : String
  RefreshToken : Option String := none
  ExpiresIn : Nat
  TokenType : String
deriving DecidableEq

/-- Response of Cognito `initiate_auth`: either a challenge or tokens. -/
structure InitiateAuthResponse where
  ChallengeName : Option String := none
  Session : Option String := none
  AuthenticationResult : Option AuthenticationResult := none
deriving DecidableEq

/-- Python truthiness of an optional string: `None` and `""` are falsy. -/
def pyTruthyOptStr : Option String → Bool
  | none => false
  | some s => s != ""

/-- ASCII lower-casing of one character, as `str.lower` acts on the
ASCII range (all values in scope are ASCII). -/
def pyCharLower (c : Char) : Char :=
  if 65 ≤ c.toNat ∧ c.toNat ≤ 90 then Char.ofNat (c.toNat + 32) else c

/-- Python `s.lower()` over the ASCII range. -/
def pyLower (s : String) : String := String.mk (s.data.map pyCharLower)

/-- Python `pat in s` substring test (for one-word patterns). -/
def containsSub (s pat : String) : Bool :=
  (List.range (s.data.length + 1)).any (fun i => pat.data.isPrefixOf (s.data.drop i))

/-- Cognito client configuration (`COGNITO_CLIENT_ID`,
`COGNITO_CLIENT_SECRET`); the client secret is optional. -/
structure CognitoConfig where
  client_id : String
  client_secret : Option String := none
deriving DecidableEq

/-- `CognitoService._get_secret_hash` (identical in
`src/src/services/cognito_service.py` lines 26-35,
`src/backend/app/services/cognito_service.py` lines 27-36 and
`src/backend/app/core/security.py` lines 32-41): `None` when no client
secret is configured, otherwise the Base64 HMAC-SHA256 of
`username + client_id` keyed by the secret. -/
def secretHashPy (cfg : CognitoConfig) (username : String) : Option String :=
  match cfg.client_secret with
  | none => none
  | some s =>
      if s = "" then none
      else some (b64encode (hmacSha256 (utf8Bytes s) (utf8Bytes (username ++ cfg.client_id))))

/-- Modelled from the spec wording of the secret-hash requirement: a
message authentication code (HMAC-SHA256) over the concatenation of the
username and the client identifier, keyed by the client secret, Base64
encoded.  Used as the specification side of the refinement in claim C4. -/
def specSecretHash (secret username clientId : String) : String :=
  b64encode (hmacSha256 (utf8Bytes secret) (utf8Bytes (username ++ clientId)))

/-- The parameters both generations pass to Cognito `sign_up`. -/
structure SignUpParams where
  ClientId : String
  Username : String
  Password : String
  UserAttributes : List (String × String)
  SecretHash : Option String := none
deriving DecidableEq

/-- The parameters both generations pass to Cognito `initiate_auth`;
`AuthParameters` is the string-to-string dictionary of the call. -/
structure InitiateAuthParams where
  ClientId : String
  AuthFlow : String
  AuthParameters : List (String × String)
deriving DecidableEq

/-- Dictionary lookup in `AuthParameters`. -/
def authParam (p : InitiateAuthParams) (k : String) : Option String :=
  (p.AuthParameters.find? (fun kv => kv.1 == k)).map (fun kv => kv.2)

/-- The `sign_up` request built by `register_user` (both generations,
`src/src/services/cognito_service.py` lines 45-67 and
`src/backend/app/services/cognito_service.py` lines 46-68): user
attributes with optional given/family name (attached only when truthy),
and `SecretHash` attached only when `_get_secret_hash` returns a truthy
value. -/
def buildSignUpParams (cfg : CognitoConfig) (email password username : String)
    (first_name last_name : Option String) : SignUpParams :=
  let attrs := [("email", email), ("preferred_username", username)] ++
    (if pyTruthyOptStr first_name then [("given_name", first_name.getD "")] else []) ++
    (if pyTruthyOptStr last_name then [("family_name", last_name.getD "")] else [])
  let sh := secretHashPy cfg email
  { ClientId := cfg.client_id, Username := email, Password := password,
    UserAttributes := attrs,
    SecretHash := if pyTruthyOptStr sh then sh else none }

/-- The `USER_PASSWORD_AUTH` request built by `authenticate_user` (both
generations): `SECRET_HASH` is added to `AuthParameters` only when the
computed hash is truthy. -/
def buildPasswordAuthParams (cfg : CognitoConfig) (email password : String) :
    InitiateAuthParams :=
  let sh := secretHashPy cfg email
  { ClientId := cfg.client_id, AuthFlow := "USER_PASSWORD_AUTH",
    AuthParameters := [("USERNAME", email), ("PASSWORD", password)] ++
      (if pyTruthyOptStr sh then [("SECRET_HASH", sh.getD "")] else []) }

/-- The `REFRESH_TOKEN_AUTH` request built by `refresh_tokens` (both
generations, guarded by `if self.client_secret:`): the hash is computed
over the refresh token in place of a username. -/
def buildRefreshParams (cfg : CognitoConfig) (refresh_token : String) :
    InitiateAuthParams :=
  { ClientId := cfg.client_id, AuthFlow := "REFRESH_TOKEN_AUTH",
    AuthParameters := [("REFRESH_TOKEN", refresh_token)] ++
      (if pyTruthyOptStr cfg.client_secret
       then [("SECRET_HASH", (secretHashPy cfg refresh_token).getD "")] else []) }

/-- The `CUSTOM_AUTH` request built by `authenticate_with_google`
(`src/backend/app/services/cognito_service.py` lines 148-156). -/
def buildGoogleAuthParams (cfg : CognitoConfig) (email google_id_token : String) :
    InitiateAuthParams :=
  { ClientId := cfg.client_id, AuthFlow := "CUSTOM_AUTH",
    AuthParameters := [("USERNAME", email), ("CHALLENGE_NAME", "GOOGLE_AUTH"),
      ("GOOGLE_TOKEN", google_id_token)] }

/-- Python dictionary returned by the service layer: every key optional,
mirroring `Tuple[bool, Dict]` results.  `session` is doubly optional
(key present with a possibly-`None` value). -/
structure PyDict where
  error : Option String := none
  message : Option String := none
  challenge : Option String := none
  session : Option (Option String) := none
  access_token : Option String := none
  id_token : Option String := none
  refresh_token : Option String := none
  expires_in : Option Nat := none
  token_type : Option String := none
  user_sub : Option String := none
  user_confirmed : Option Bool := none
  code_delivery_details : Option String := none
  email : Option String := none
  given_name : Option String := none
  family_name : Option String := none
  tokens : Option AuthenticationResult := none
deriving DecidableEq

/-- The token bundle `AuthTokenResponse` (same pydantic schema in
`src/src/models/auth_models.py` and `src/backend/app/schemas/auth.py`). -/
structure AuthTokenResponse where
  access_token : String
  id_token : String
  refresh_token : String
  expires_in : Nat
  token_type : String := "Bearer"
deriving DecidableEq

/-- `AuthTokenResponse(**result)`: pydantic construction from the service
dictionary; fails (`ValidationError`) when a required key is missing. -/
def authTokenOfDict (d : PyDict) : Option AuthTokenResponse :=
  match d.access_token, d.id_token, d.refresh_token, d.expires_in with
  | some a, some i, some r, some e =>
      some { access_token := a, id_token := i, refresh_token := r, expires_in := e,
             token_type := d.token_type.getD "Bearer" }
  | _, _, _, _ => none

/-- The registration success payload `UserRegistrationResponse` (shared
schema shape of both generations). -/
structure UserRegistrationResponse where
  user_id : String
  email : String
  username : String
  created_at : Nat
  message : String := "User registered successfully"
deriving DecidableEq

/-- The registration request body (`UserRegistrationRequest`, same shape
in both generations), as handed to the route after schema validation. -/
structure UserRegistrationRequest where
  email : String
  password : String
  username : String
  first_name : Option String := none
  last_name : Option String := none
deriving DecidableEq

/-- The login request body (both generations). -/
structure UserLoginRequest where
  email : String
  password : String
deriving DecidableEq

/-- The refresh request body (both generations). -/
structure TokenRefreshRequest where
  refresh_token : String
deriving DecidableEq

/-- The shared username validator (`validate_username` in
`src/src/models/auth_models.py` lines 25-29 and
`src/backend/app/schemas/auth.py`): strip `_` and `-`, require the rest
alphanumeric and nonempty (Python `str.isalnum` is false on `""`), and
return the lower-cased value.  `none` models `ValueError` rejection.
ASCII alphanumerics and lower-casing suffice for the values in scope. -/
def validate_username (v : String) : Option String :=
  let stripped := v.data.filter (fun c => c != '_' && c != '-')
  if stripped != [] && stripped.all (fun c => c.isAlpha || c.isDigit)
  then some (pyLower v) else none

/-! ## Generation 1: `src/src` (repository-pattern service) -/

namespace Gen1

/-- `CognitoService.register_user` of
`src/src/services/cognito_service.py` lines 37-91: builds the sign-up
request, and maps provider `ClientError` codes onto the domain taxonomy
(`USER_EXISTS`, `INVALID_PASSWORD`, `INVALID_PARAMETER`, catch-all
`REGISTRATION_FAILED`); any other exception maps to `INTERNAL_ERROR`. -/
def register_user (cfg : CognitoConfig) (email password username : String)
    (first_name last_name : Option String)
    (call : SignUpParams → ProviderCall SignUpResponse) : Bool × PyDict :=
  let params := buildSignUpParams cfg email password username first_name last_name
  match call params with
  | .ok resp =>
      (true, { user_sub := some resp.UserSub,
               user_confirmed := some (resp.UserConfirmed.getD false),
               code_delivery_details := resp.CodeDeliveryDetails })
  | .clientError code _msg =>
      if code = "UsernameExistsException" then
        (false, { error := some "USER_EXISTS",
                  message := some "User with this email already exists" })
      else if code = "InvalidPasswordException" then
        (false, { error := some "INVALID_PASSWORD", message := some _msg })
      else if code = "InvalidParameterException" then
        (false, { error := some "INVALID_PARAMETER", message := some _msg })
      else
        (false, { error := some "REGISTRATION_FAILED",
                  message := some "Failed to register user" })
  | .exn _ =>
      (false, { error := some "INTERNAL_ERROR",
                message := some "An unexpected error occurred" })

/-- `CognitoService.authenticate_user` of
`src/src/services/cognito_service.py` lines 93-146.  A truthy
`ChallengeName` yields the `AUTH_CHALLENGE` dictionary; a missing
`AuthenticationResult` or `RefreshToken` key raises `KeyError`, caught as
`INTERNAL_ERROR`; `ClientError` codes map onto the login taxonomy. -/
def authenticate_user (cfg : CognitoConfig) (email password : String)
    (call : InitiateAuthParams → ProviderCall InitiateAuthResponse) : Bool × PyDict :=
  let params := buildPasswordAuthParams cfg email password
  match call params with
  | .ok resp =>
      if pyTruthyOptStr resp.ChallengeName then
        (false, { error := some "AUTH_CHALLENGE",
                  challenge := resp.ChallengeName,
                  session := some resp.Session,
                  message := some "Authentication challenge required" })
      else
        match resp.AuthenticationResult with
        | none =>
            (false, { error := some "INTERNAL_ERROR",
                      message := some "An unexpected error occurred" })
        | some ar =>
            match ar.RefreshToken with
            | none =>
                (false, { error := some "INTERNAL_ERROR",
                          message := some "An unexpected error occurred" })
            | some rt =>
                (true, { access_token := some ar.AccessToken,
                         id_token := some ar.IdToken,
                         refresh_token := some rt,
                         expires_in := some ar.ExpiresIn,
                         token_type := some ar.TokenType })
  | .clientError code _msg =>
      if code = "NotAuthorizedException" then
        (false, { error := some "INVALID_CREDENTIALS",
                  message := some "Invalid email or password" })
      else if code = "UserNotFoundException" then
        (false, { error := some "USER_NOT_FOUND", message := some "User not found" })
      else if code = "UserNotConfirmedException" then
        (false, { error := some "USER_NOT_CONFIRMED",
                  message := some "User account not confirmed" })
      else if code = "PasswordResetRequiredException" then
        (false, { error := some "PASSWORD_RESET_REQUIRED",
                  message := some "Password reset required" })
      else
        (false, { error := some "AUTH_FAILED", message := some "Authentication failed" })
  | .exn _ =>
      (false, { error := some "INTERNAL_ERROR",
                message := some "An unexpected error occurred" })

/-- `CognitoService.refresh_tokens` of
`src/src/services/cognito_service.py` lines 148-184.  The success
dictionary carries no `refresh_token` key; `NotAuthorizedException` maps
to `INVALID_REFRESH_TOKEN`, other `ClientError` codes to
`REFRESH_FAILED`. -/
def refresh_tokens (cfg : CognitoConfig) (refresh_token : String)
    (call : InitiateAuthParams → ProviderCall InitiateAuthResponse) : Bool × PyDict :=
  let params := buildRefreshParams cfg refresh_token
  match call params with
  | .ok resp =>
      match resp.AuthenticationResult with
      | none =>
          (false, { error := some "INTERNAL_ERROR",
                    message := some "An unexpected error occurred" })
      | some ar =>
          (true, { access_token := some ar.AccessToken,
                   id_token := some ar.IdToken,
                   expires_in := some ar.ExpiresIn,
                   token_type := some ar.TokenType })
  | .clientError code _msg =>
      if code = "NotAuthorizedException" then
        (false, { error := some "INVALID_REFRESH_TOKEN",
                  message := some "Invalid or expired refresh token" })
      else
        (false, { error := some "REFRESH_FAILED",
                  message := some "Failed to refresh tokens" })
  | .exn _ =>
      (false, { error := some "INTERNAL_ERROR",
                message := some "An unexpected error occurred" })

/-- A row of the `users` table of `src/src/database/user_repository.py`
lines 16-28.  Timestamps are abstract instants (`Nat`); the `metadata`
text column stores the rendering of `{'confirmed': bool}` and is modelled
by that flag, which no code inspects. -/
structure UserRow where
  id : String
  cognito_id : String
  email : String
  username : String
  first_name : Option String := none
  last_name : Option String := none
  created_at : Nat := 0
  updated_at : Nat := 0
  last_login : Option Nat := none
  meta : Option Bool := none
deriving DecidableEq

/-- The local relational store of generation 1. -/
abbrev Db := List UserRow

/-- Outcome of a `session.commit()` in the repository: success, an
`IntegrityError` with its rendered text, a `SQLAlchemyError`, or any
other exception. -/
inductive DbOutcome where
  | ok
  | integrityError (text : String)
  | sqlError (text : String)
  | otherError (text : String)
deriving DecidableEq

/-- Result dictionary of `UserRepository.create_user`: the created row or
an error dictionary. -/
inductive CreateResult where
  | success (row : UserRow)
  | errDict (error message : String)
deriving DecidableEq

/-- `UserRepository.create_user` of `src/src/database/user_repository.py`
lines 46-107: inserts the row with lower-cased email and username; on
`IntegrityError` inspects the rendered error text to classify the
violated constraint; never raises. -/
def create_user (db : Db) (outcome : DbOutcome) (cognito_id email username : String)
    (first_name last_name : Option String) (meta : Option Bool)
    (newId : String) (now : Nat) : CreateResult × Db :=
  match outcome with
  | .ok =>
      let row : UserRow :=
        { id := newId, cognito_id := cognito_id, email := pyLower email,
          username := pyLower username, first_name := first_name,
          last_name := last_name, created_at := now, updated_at := now,
          last_login := none, meta := meta }
      (.success row, db ++ [row])
  | .integrityError text =>
      if containsSub text "email" then
        (.errDict "EMAIL_EXISTS" "Email already exists", db)
      else if containsSub text "username" then
        (.errDict "USERNAME_EXISTS" "Username already exists", db)
      else if containsSub text "cognito_id" then
        (.errDict "COGNITO_ID_EXISTS" "Cognito ID already exists", db)
      else
        (.errDict "DUPLICATE_USER" "User already exists", db)
  | .sqlError _ =>
      (.errDict "DATABASE_ERROR" "Failed to create user in database", db)
  | .otherError _ =>
      (.errDict "INTERNAL_ERROR" "An unexpected error occurred", db)

/-- `UserRepository.get_user_by_email` lines 109-134: first row whose
stored email equals the lower-cased argument.  (The Python wraps the row
into a dictionary of the same column values; we return the row.) -/
def get_user_by_email (db : Db) (email : String) : Option UserRow :=
  db.find? (fun u => u.email == pyLower email)

/-- `UserRepository.get_user_by_cognito_id` lines 136-161 (no case
normalization: the subject identifier is matched verbatim). -/
def get_user_by_cognito_id (db : Db) (cognito_id : String) : Option UserRow :=
  db.find? (fun u => u.cognito_id == cognito_id)

/-- `UserRepository.update_last_login` lines 163-182: looks up by
lower-cased email; returns `False` when the row is missing or the commit
fails, `True` on success. -/
def update_last_login (db : Db) (email : String) (now : Nat) (commitOk : Bool) :
    Bool × Db :=
  match db.find? (fun u => u.email == pyLower email) with
  | none => (false, db)
  | some _ =>
      if commitOk then
        (true, db.map (fun u => if u.email == pyLower email
                                then { u with last_login := some now } else u))
      else (false, db)

/-- `UserRepository.delete_user` lines 184-204: looks up by lower-cased
email and deletes the row. -/
def delete_user (db : Db) (email : String) (commitOk : Bool) : Bool × Db :=
  match db.find? (fun u => u.email == pyLower email) with
  | none => (false, db)
  | some _ =>
      if commitOk then
        (true, db.filter (fun u => u.email != pyLower email))
      else (false, db)

/-- The uniform error body `ErrorResponse` of
`src/src/models/auth_models.py` lines 57-61 (the `timestamp` default is
not modelled; no code reads it). -/
structure ErrorResponse where
  error : String
  message : String
  status_code : Nat
deriving DecidableEq

/-- HTTP result of the generation-1 register route: 201 or an error. -/
inductive RegisterResult where
  | created (resp : UserRegistrationResponse)
  | err (status : Nat) (body : ErrorResponse)
deriving DecidableEq

/-- HTTP result of the generation-1 login route: 200 with a bundle, a 202
`JSONResponse` with the challenge payload, or an error. -/
inductive LoginResult where
  | okTok (t : AuthTokenResponse)
  | accepted (challenge : Option String) (session : Option String) (message : Option String)
  | err (status : Nat) (body : ErrorResponse)
deriving DecidableEq

/-- HTTP result of the generation-1 refresh route. -/
inductive RefreshResult where
  | okTok (t : AuthTokenResponse)
  | err (status : Nat) (body : ErrorResponse)
deriving DecidableEq

/-- The `error_mapping` dictionary of the register route
(`src/src/api/auth.py` lines 38-46), with default 400. -/
def registerStatusMap : Option String → Nat
  | some "USER_EXISTS" => 409
  | some "INVALID_PASSWORD" => 400
  | some "INVALID_PARAMETER" => 400
  | some "REGISTRATION_FAILED" => 500
  | some "INTERNAL_ERROR" => 500
  | _ => 400

/-- The `error_mapping` dictionary of the login route
(`src/src/api/auth.py` lines 101-111), with default 401. -/
def loginStatusMap : Option String → Nat
  | some "INVALID_CREDENTIALS" => 401
  | some "USER_NOT_FOUND" => 404
  | some "USER_NOT_CONFIRMED" => 403
  | some "PASSWORD_RESET_REQUIRED" => 403
  | some "AUTH_CHALLENGE" => 202
  | some "AUTH_FAILED" => 401
  | some "INTERNAL_ERROR" => 500
  | _ => 401

/-- The `error_mapping` dictionary of the refresh route
(`src/src/api/auth.py` lines 164-170), with default 400. -/
def refreshStatusMap : Option String → Nat
  | some "INVALID_REFRESH_TOKEN" => 401
  | some "REFRESH_FAILED" => 400
  | some "INTERNAL_ERROR" => 500
  | _ => 400

/-- `POST /api/auth/register` of `src/src/api/auth.py` lines 26-89.  On
provider success the local write result is only logged (lines 68-69): the
201 response is built from the provider subject identifier and the
request fields regardless of the database outcome. -/
def register (cfg : CognitoConfig) (req : UserRegistrationRequest)
    (call : SignUpParams → ProviderCall SignUpResponse)
    (db : Db) (dbOutcome : DbOutcome) (newId : String) (now : Nat) :
    RegisterResult × Db :=
  match register_user cfg req.email req.password req.username req.first_name
      req.last_name call with
  | (false, d) =>
      let status := registerStatusMap d.error
      (.err status ⟨d.error.getD "UNKNOWN_ERROR", d.message.getD "Registration failed",
        status⟩, db)
  | (true, d) =>
      match d.user_sub with
      | none =>
          -- unreachable: the service success dictionary always carries user_sub;
          -- a missing value would fail response validation and reach the generic
          -- 500 handler.
          (.err 500 ⟨"INTERNAL_ERROR", "An unexpected error occurred during registration",
            500⟩, db)
      | some cognito_user_id =>
          let r := create_user db dbOutcome cognito_user_id req.email req.username
            req.first_name req.last_name (some (d.user_confirmed.getD false)) newId now
          (.created { user_id := cognito_user_id, email := req.email,
                      username := req.username, created_at := now }, r.2)

/-- `POST /api/auth/login` of `src/src/api/auth.py` lines 92-153.  An
`AUTH_CHALLENGE` service outcome is returned as a 202 `JSONResponse` with
the challenge payload (lines 113-121); on success `update_last_login` is
called and its boolean result ignored (line 132). -/
def login (cfg : CognitoConfig) (req : UserLoginRequest)
    (call : InitiateAuthParams → ProviderCall InitiateAuthResponse)
    (db : Db) (now : Nat) (llCommitOk : Bool) : LoginResult × Db :=
  match authenticate_user cfg req.email req.password call with
  | (false, d) =>
      let status := loginStatusMap d.error
      if d.error == some "AUTH_CHALLENGE" then
        (.accepted d.challenge (d.session.getD none) d.message, db)
      else
        (.err status ⟨d.error.getD "UNKNOWN_ERROR", d.message.getD "Authentication failed",
          status⟩, db)
  | (true, d) =>
      let r := update_last_login db req.email now llCommitOk
      match d.access_token, d.id_token, d.refresh_token, d.expires_in with
      | some a, some i, some rt, some e =>
          (.okTok ⟨a, i, rt, e, d.token_type.getD "Bearer"⟩, r.2)
      | _, _, _, _ =>
          (.err 500 ⟨"INTERNAL_ERROR", "An unexpected error occurred during login", 500⟩,
            r.2)

/-- `POST /api/auth/refresh-token` of `src/src/api/auth.py` lines 156-200.
The returned bundle reuses `request.refresh_token` verbatim (line 184). -/
def refresh_token_route (cfg : CognitoConfig) (req : TokenRefreshRequest)
    (call : InitiateAuthParams → ProviderCall InitiateAuthResponse) : RefreshResult :=
  match refresh_tokens cfg req.refresh_token call with
  | (false, d) =>
      let status := refreshStatusMap d.error
      .err status ⟨d.error.getD "UNKNOWN_ERROR", d.message.getD "Token refresh failed",
        status⟩
  | (true, d) =>
      match d.access_token, d.id_token, d.expires_in with
      | some a, some i, some e =>
          .okTok ⟨a, i, req.refresh_token, e, d.token_type.getD "Bearer"⟩
      | _, _, _ =>
          .err 500 ⟨"INTERNAL_ERROR", "An unexpected error occurred during token refresh",
            500⟩

end Gen1

/-! ## Generation 2: `src/backend/app` (FastAPI/SQLModel service) -/

namespace Gen2

/-- HTTP error raised by a generation-2 route (`HTTPException`): status,
string detail, optional extra headers. -/
structure HttpError where
  status : Nat
  detail : String
  headers : List (String × String) := []
deriving DecidableEq

/-- `CognitoService.register_user` of
`src/backend/app/services/cognito_service.py` lines 38-83.  Unlike
generation 1, a provider `ClientError` is returned with its code and
message verbatim (line 80). -/
def register_user (cfg : CognitoConfig) (email password username : String)
    (first_name last_name : Option String)
    (call : SignUpParams → ProviderCall SignUpResponse) : Bool × PyDict :=
  let params := buildSignUpParams cfg email password username first_name last_name
  match call params with
  | .ok resp =>
      (true, { user_sub := some resp.UserSub,
               user_confirmed := some (resp.UserConfirmed.getD false) })
  | .clientError code msg => (false, { error := some code, message := some msg })
  | .exn msg => (false, { error := some "INTERNAL_ERROR", message := some msg })

/-- `CognitoService.authenticate_user` of
`src/backend/app/services/cognito_service.py` lines 85-131.  The
challenge dictionary carries no `message` key (lines 106-111);
`ClientError` codes pass through verbatim (line 128). -/
def authenticate_user (cfg : CognitoConfig) (email password : String)
    (call : InitiateAuthParams → ProviderCall InitiateAuthResponse) : Bool × PyDict :=
  let params := buildPasswordAuthParams cfg email password
  match call params with
  | .ok resp =>
      if pyTruthyOptStr resp.ChallengeName then
        (false, { error := some "AUTH_CHALLENGE",
                  challenge := resp.ChallengeName,
                  session := some resp.Session })
      else
        match resp.AuthenticationResult with
        | none =>
            -- KeyError on response['AuthenticationResult'], caught by the
            -- generic except branch
            (false, { error := some "INTERNAL_ERROR",
                      message := some "AuthenticationResult" })
        | some ar =>
            match ar.RefreshToken with
            | none =>
                (false, { error := some "INTERNAL_ERROR",
                          message := some "RefreshToken" })
            | some rt =>
                (true, { access_token := some ar.AccessToken,
                         id_token := some ar.IdToken,
                         refresh_token := some rt,
                         expires_in := some ar.ExpiresIn,
                         token_type := some ar.TokenType })
  | .clientError code msg => (false, { error := some code, message := some msg })
  | .exn msg => (false, { error := some "INTERNAL_ERROR", message := some msg })

/-- `CognitoService.refresh_tokens` of
`src/backend/app/services/cognito_service.py` lines 180-215: the success
dictionary reuses the input `refresh_token` (line 202); `ClientError`
codes pass through verbatim. -/
def refresh_tokens (cfg : CognitoConfig) (refresh_token : String)
    (call : InitiateAuthParams → ProviderCall InitiateAuthResponse) : Bool × PyDict :=
  let params := buildRefreshParams cfg refresh_token
  match call params with
  | .ok resp =>
      match resp.AuthenticationResult with
      | none =>
          (false, { error := some "INTERNAL_ERROR",
                    message := some "AuthenticationResult" })
      | some ar =>
          (true, { access_token := some ar.AccessToken,
                   id_token := some ar.IdToken,
                   refresh_token := some refresh_token,
                   expires_in := some ar.ExpiresIn,
                   token_type := some ar.TokenType })
  | .clientError code msg => (false, { error := some code, message := some msg })
  | .exn msg => (false, { error := some "INTERNAL_ERROR", message := some msg })

/-- The decoded Google identity token (`id_token.verify_oauth2_token`
result) used by `authenticate_with_google`. -/
structure GoogleIdInfo where
  email : String
  given_name : Option String := none
  family_name : Option String := none
  sub : String
deriving DecidableEq

/-- Outcome of the Google token validation (external library call). -/
inductive GoogleVerify where
  | ok (idinfo : GoogleIdInfo)
  | fail (message : String)
deriving DecidableEq

/-- `CognitoService.authenticate_with_google` of
`src/backend/app/services/cognito_service.py` lines 133-178: validates
the Google token, exchanges it via `CUSTOM_AUTH`, and collapses every
failure to `GOOGLE_AUTH_FAILED`. -/
def authenticate_with_google (cfg : CognitoConfig) (google_id_token : String)
    (gverify : GoogleVerify)
    (call : InitiateAuthParams → ProviderCall InitiateAuthResponse) : Bool × PyDict :=
  match gverify with
  | .fail msg => (false, { error := some "GOOGLE_AUTH_FAILED", message := some msg })
  | .ok idinfo =>
      let params := buildGoogleAuthParams cfg idinfo.email google_id_token
      match call params with
      | .ok resp =>
          match resp.AuthenticationResult with
          | none =>
              (false, { error := some "GOOGLE_AUTH_FAILED",
                        message := some "AuthenticationResult" })
          | some ar =>
              match ar.RefreshToken with
              | none =>
                  (false, { error := some "GOOGLE_AUTH_FAILED",
                            message := some "RefreshToken" })
              | some _ =>
                  (true, { email := some idinfo.email,
                           given_name := some (idinfo.given_name.getD ""),
                           family_name := some (idinfo.family_name.getD ""),
                           user_sub := some idinfo.sub,
                           tokens := some ar })
      | .clientError _ msg =>
          (false, { error := some "GOOGLE_AUTH_FAILED", message := some msg })
      | .exn msg =>
          (false, { error := some "GOOGLE_AUTH_FAILED", message := some msg })

/-- Response of the provider user-info endpoint (`get_user`). -/
structure GetUserResponse where
  Username : String
  UserAttributes : List (String × String)
deriving DecidableEq

/-- The verified principal injected by the authentication dependency:
username, attribute dictionary, and the `sub` attribute when present. -/
structure CurrentUser where
  username : String
  attributes : List (String × String)
  sub : Option String
deriving DecidableEq

/-- `CognitoAuth.verify_token` of `src/backend/app/core/security.py` lines
43-60: introspects the access token against the provider; a provider
`ClientError` becomes a 401 `HTTPException`; any other exception
propagates uncaught (modelled as a 500 carrier, immediately re-wrapped by
`get_current_user`). -/
def verify_token (call : ProviderCall GetUserResponse) : Except HttpError CurrentUser :=
  match call with
  | .ok r =>
      .ok { username := r.Username, attributes := r.UserAttributes,
            sub := (r.UserAttributes.find? (fun kv => kv.1 == "sub")).map (fun kv => kv.2) }
  | .clientError _ _ => .error { status := 401, detail := "Invalid authentication credentials" }
  | .exn msg => .error { status := 500, detail := msg }

/-- `get_current_user` of `src/backend/app/core/security.py` lines 85-97:
wraps `verify_token` and collapses every failure, whatever its reason, to
the same 401 response. -/
def get_current_user (call : ProviderCall GetUserResponse) : Except HttpError CurrentUser :=
  match verify_token call with
  | .ok c => .ok c
  | .error _ =>
      .error { status := 401, detail := "Could not validate credentials",
               headers := [("WWW-Authenticate", "Bearer")] }

/-- FastAPI's `HTTPBearer` with `auto_error=True`, the default used at
`src/backend/app/core/security.py` line 19 (an external collaborator of
this repository): a missing `Authorization` header, or an empty scheme or
credentials part, is rejected with 403 `Not authenticated`; a non-Bearer
scheme with 403 `Invalid authentication credentials`; otherwise the
credentials string is passed on.  The header is modelled split into its
scheme and credentials parts. -/
def httpBearer : Option (String × String) → Except HttpError String
  | none => .error { status := 403, detail := "Not authenticated" }
  | some (scheme, credentials) =>
      if scheme == "" || credentials == "" then
        .error { status := 403, detail := "Not authenticated" }
      else if pyLower scheme != "bearer" then
        .error { status := 403, detail := "Invalid authentication credentials" }
      else .ok credentials

/-- `FitnessLevel` enum of `src/backend/app/models/user.py`. -/
inductive FitnessLevel where
  | beginner
  | intermediate
  | advanced
deriving DecidableEq

/-- A row of the `users` table (`src/backend/app/models/user.py` lines
14-33).  Identifiers are abstract strings, timestamps abstract instants. -/
structure UserRow where
  id : String
  cognito_id : String
  email : String
  username : String
  first_name : Option String := none
  last_name : Option String := none
  created_at : Nat := 0
  updated_at : Nat := 0
  last_login : Option Nat := none
  is_active : Bool := true
deriving DecidableEq

/-- A row of the `user_profiles` table (`src/backend/app/models/user.py`
lines 36-55).  The float columns `height_cm`/`weight_kg` are modelled as
rationals: the code only stores and copies them, never computes. -/
structure ProfileRow where
  id : String := ""
  user_id : String
  fitness_level : Option FitnessLevel := none
  goals : Option (List String) := none
  equipment : Option (List String) := none
  has_completed_onboarding : Bool := false
  age : Option Int := none
  height_cm : Option Rat := none
  weight_kg : Option Rat := none
  preferred_workout_time : Option String := none
  injury_notes : Option String := none
deriving DecidableEq

/-- The generation-2 relational store. -/
structure Db where
  users : List UserRow
  profiles : List ProfileRow
deriving DecidableEq

/-- `UserProfileUpdateRequest` of `src/backend/app/schemas/profile.py`
lines 14-22.  The outer `Option` is pydantic field presence
(`exclude_unset`): `none` means the field was absent from the request
body; `some v` means it was provided with value `v` (itself optional,
since an explicit null is a value). -/
structure UserProfileUpdateRequest where
  fitness_level : Option (Option FitnessLevel) := none
  goals : Option (Option (List String)) := none
  equipment : Option (Option (List String)) := none
  age : Option (Option Int) := none
  height_cm : Option (Option Rat) := none
  weight_kg : Option (Option Rat) := none
  preferred_workout_time : Option (Option String) := none
  injury_notes : Option (Option String) := none
deriving DecidableEq

/-- The `setattr` loop of `src/backend/app/api/v1/onboarding.py` lines
42-44 over `request.model_dump(exclude_unset=True)`: fields present in
the request overwrite the profile column, absent fields are untouched. -/
def applyUpdate (p : ProfileRow) (r : UserProfileUpdateRequest) : ProfileRow :=
  { p with
    fitness_level := r.fitness_level.getD p.fitness_level,
    goals := r.goals.getD p.goals,
    equipment := r.equipment.getD p.equipment,
    age := r.age.getD p.age,
    height_cm := r.height_cm.getD p.height_cm,
    weight_kg := r.weight_kg.getD p.weight_kg,
    preferred_workout_time := r.preferred_workout_time.getD p.preferred_workout_time,
    injury_notes := r.injury_notes.getD p.injury_notes }

/-- `UserProfileResponse` of `src/backend/app/schemas/profile.py` lines
25-44, as built at `src/backend/app/api/v1/onboarding.py` lines 51-68. -/
structure UserProfileResponse where
  id : String
  email : String
  username : String
  first_name : Option String
  last_name : Option String
  fitness_level : Option FitnessLevel
  goals : Option (List String)
  equipment : Option (List String)
  has_completed_onboarding : Bool
  age : Option Int
  height_cm : Option Rat
  weight_kg : Option Rat
  preferred_workout_time : Option String
  injury_notes : Option String
  created_at : Nat
  updated_at : Nat
deriving DecidableEq

/-- The response constructed from the user row and its refreshed profile. -/
def mkProfileResponse (u : UserRow) (p : ProfileRow) : UserProfileResponse :=
  { id := u.id, email := u.email, username := u.username,
    first_name := u.first_name, last_name := u.last_name,
    fitness_level := p.fitness_level, goals := p.goals, equipment := p.equipment,
    has_completed_onboarding := p.has_completed_onboarding, age := p.age,
    height_cm := p.height_cm, weight_kg := p.weight_kg,
    preferred_workout_time := p.preferred_workout_time,
    injury_notes := p.injury_notes, created_at := u.created_at,
    updated_at := u.updated_at }

/-- The lazily created `UserProfile(user_id=user.id)` of
`src/backend/app/api/v1/onboarding.py` line 36, with column defaults. -/
def newProfile (pid uid : String) : ProfileRow := { id := pid, user_id := uid }

/-- The profile row written by a successful onboarding call: the partial
update applied and `has_completed_onboarding` set unconditionally
(`src/backend/app/api/v1/onboarding.py` line 46). -/
def finalProfile (p : ProfileRow) (r : UserProfileUpdateRequest) : ProfileRow :=
  { applyUpdate p r with has_completed_onboarding := true }

/-- `PUT /onboarding` of `src/backend/app/api/v1/onboarding.py` lines
15-68, composed with its dependencies: `HTTPBearer` extraction, then
`get_current_user`, then user lookup by the token subject (404 when
absent), lazy profile creation, partial update, completion flag, commit.
`commitOk1`/`commitOk2` are the outcomes of the two `session.commit()`
calls; the route has no exception handler, so a failed commit surfaces as
the framework's 500 with the uncommitted changes dropped. -/
def complete_onboarding (header : Option (String × String))
    (verify : ProviderCall GetUserResponse) (req : UserProfileUpdateRequest)
    (db : Db) (pid : String) (commitOk1 commitOk2 : Bool) :
    Except HttpError UserProfileResponse × Db :=
  match httpBearer header with
  | .error e => (.error e, db)
  | .ok _ =>
  match get_current_user verify with
  | .error e => (.error e, db)
  | .ok cu =>
      match db.users.find? (fun u => some u.cognito_id == cu.sub) with
      | none => (.error { status := 404, detail := "User not found" }, db)
      | some user =>
          let found := db.profiles.find? (fun p => p.user_id == user.id)
          let afterCreate : Option (ProfileRow × Db) :=
            match found with
            | some p => some (p, db)
            | none =>
                if commitOk1 then
                  let p := newProfile pid user.id
                  some (p, { db with profiles := db.profiles ++ [p] })
                else none
          match afterCreate with
          | none => (.error { status := 500, detail := "Internal Server Error" }, db)
          | some (p0, db1) =>
              let p1 := finalProfile p0 req
              if commitOk2 then
                let upd := db1.profiles.map (fun q => if q.user_id == user.id then p1 else q)
                (.ok (mkProfileResponse user p1), { db1 with profiles := upd })
              else
                (.error { status := 500, detail := "Internal Server Error" }, db1)

/-- `POST /auth/register` of `src/backend/app/api/v1/auth.py` lines 26-75.
A falsy service result raises 400 with the service message; a failing
local commit after provider success is caught by the generic handler and
surfaces as 500 (lines 70-75). -/
def register (cfg : CognitoConfig) (req : UserRegistrationRequest)
    (call : SignUpParams → ProviderCall SignUpResponse) (db : Db)
    (newUserId newProfileId : String) (now : Nat)
    (commitUserOk commitProfileOk : Bool) :
    Except HttpError UserRegistrationResponse × Db :=
  match register_user cfg req.email req.password req.username req.first_name
      req.last_name call with
  | (false, d) =>
      (.error { status := 400, detail := d.message.getD "Registration failed" }, db)
  | (true, d) =>
      match d.user_sub with
      | none =>
          -- unreachable: KeyError on result['user_sub'] would reach the
          -- generic 500 handler
          (.error { status := 500, detail := "An error occurred during registration" }, db)
      | some sub =>
          if commitUserOk then
            let u : UserRow :=
              { id := newUserId, cognito_id := sub, email := req.email,
                username := req.username, first_name := req.first_name,
                last_name := req.last_name, created_at := now, updated_at := now }
            let db1 : Db := { db with users := db.users ++ [u] }
            if commitProfileOk then
              (.ok { user_id := newUserId, email := u.email, username := u.username,
                     created_at := now },
               { db1 with profiles := db1.profiles ++ [newProfile newProfileId u.id] })
            else
              (.error { status := 500, detail := "An error occurred during registration" },
               db1)
          else
            (.error { status := 500, detail := "An error occurred during registration" }, db)

/-- `POST /auth/login` of `src/backend/app/api/v1/auth.py` lines 78-112.
Any falsy service result — including an authentication challenge — raises
401 (lines 89-93).  The module never imports `datetime`, so the
`user.last_login = datetime.utcnow()` statement at line 100 raises
`NameError` whenever a local row matches the email; the generic handler
turns this into 500 (lines 107-112). -/
def login (cfg : CognitoConfig) (req : UserLoginRequest)
    (call : InitiateAuthParams → ProviderCall InitiateAuthResponse) (db : Db) :
    Except HttpError AuthTokenResponse × Db :=
  match authenticate_user cfg req.email req.password call with
  | (false, d) =>
      (.error { status := 401, detail := d.message.getD "Authentication failed" }, db)
  | (true, d) =>
      match db.users.find? (fun u => u.email == req.email) with
      | some _ =>
          (.error { status := 500, detail := "An error occurred during login" }, db)
      | none =>
          match authTokenOfDict d with
          | some t => (.ok t, db)
          | none =>
              (.error { status := 500, detail := "An error occurred during login" }, db)

/-- Python `email.split('@')[0]`: the characters before the first `@`. -/
def localPart (s : String) : String := String.mk (s.data.takeWhile (fun c => c != '@'))

/-- `POST /auth/google` of `src/backend/app/api/v1/auth.py` lines 115-161:
on service success, looks up the local user by the Google-reported email
compared verbatim (line 132); when absent, materializes a local User and
UserProfile from the provider-observed attributes, with the username
derived from the email local part (line 140). -/
def google_auth (cfg : CognitoConfig) (google_id_token : String)
    (gverify : GoogleVerify)
    (call : InitiateAuthParams → ProviderCall InitiateAuthResponse) (db : Db)
    (newUserId newProfileId : String) (now : Nat)
    (commitUserOk commitProfileOk : Bool) :
    Except HttpError AuthTokenResponse × Db :=
  match authenticate_with_google cfg google_id_token gverify call with
  | (false, d) =>
      (.error { status := 401, detail := d.message.getD "Google authentication failed" },
        db)
  | (true, d) =>
      let answer (db2 : Db) : Except HttpError AuthTokenResponse × Db :=
        match d.tokens with
        | some ar =>
            match ar.RefreshToken with
            | some rt =>
                (.ok { access_token := ar.AccessToken, id_token := ar.IdToken,
                       refresh_token := rt, expires_in := ar.ExpiresIn,
                       token_type := ar.TokenType }, db2)
            | none =>
                (.error { status := 500,
                          detail := "An error occurred during Google authentication" }, db2)
        | none =>
            (.error { status := 500,
                      detail := "An error occurred during Google authentication" }, db2)
      match d.email with
      | none =>
          -- User.email == None matches no row; creation would then fail on
          -- the null email; not reachable from the service success dictionary
          (.error { status := 500,
                    detail := "An error occurred during Google authentication" }, db)
      | some email =>
          match db.users.find? (fun u => u.email == email) with
          | some _ => answer db
          | none =>
              match d.user_sub with
              | none =>
                  (.error { status := 500,
                            detail := "An error occurred during Google authentication" },
                    db)
              | some sub =>
                  if commitUserOk then
                    let u : UserRow :=
                      { id := newUserId, cognito_id := sub, email := email,
                        username := localPart email, first_name := d.given_name,
                        last_name := d.family_name, created_at := now,
                        updated_at := now }
                    let db1 : Db := { db with users := db.users ++ [u] }
                    if commitProfileOk then
                      answer { db1 with
                        profiles := db1.profiles ++ [newProfile newProfileId u.id] }
                    else
                      (.error { status := 500,
                                detail := "An error occurred during Google authentication" },
                        db1)
                  else
                    (.error { status := 500,
                              detail := "An error occurred during Google authentication" },
                      db)

/-- `POST /auth/refresh-token` of `src/backend/app/api/v1/auth.py` lines
164-186: a pure pass-through to the service, no local-store interaction. -/
def refresh_token_route (cfg : CognitoConfig) (req : TokenRefreshRequest)
    (call : InitiateAuthParams → ProviderCall InitiateAuthResponse) :
    Except HttpError AuthTokenResponse :=
  match refresh_tokens cfg req.refresh_token call with
  | (false, d) =>
      .error { status := 401, detail := d.message.getD "Token refresh failed" }
  | (true, d) =>
      match authTokenOfDict d with
      | some t => .ok t
      | none => .error { status := 500, detail := "An error occurred during token refresh" }

end Gen2

/-! ## Concrete fixtures used by the closed theorems and witnesses -/

/-- A provider deployment with no client secret configured. -/
def cfg0 : CognitoConfig := { client_id := "client-1" }

/-- A provider deployment with a client secret configured. -/
def cfgS : CognitoConfig := { client_id := "client-1", client_secret := some "topsecret" }

/-- An empty generation-2 store. -/
def emptyDb2 : Gen2.Db := { users := [], profiles := [] }

/-- A generation-2 user row materialized for subject `sub-123`. -/
def demoUser2 : Gen2.UserRow :=
  { id := "u-1", cognito_id := "sub-123", email := "john@example.com", username := "john" }

/-- A generation-2 store holding exactly `demoUser2` and no profile. -/
def demoDb2 : Gen2.Db := { users := [demoUser2], profiles := [] }

/-- A provider `AuthenticationResult` with all fields populated. -/
def demoTokens : AuthenticationResult :=
  { AccessToken := "acc", IdToken := "idt", RefreshToken := some "ref",
    ExpiresIn := 3600, TokenType := "Bearer" }

/-- The empty partial-update request body. -/
def noUpdate : Gen2.UserProfileUpdateRequest := {}

/-- The partial-update request carrying only `age`. -/
def ageOnly (n : Int) : Gen2.UserProfileUpdateRequest := { age := some (some n) }

/-- The enumerated domain error taxonomy of the specification (the string
forms the code uses for the members listed in claim C3). -/
def domainTaxonomy : List String :=
  ["USER_EXISTS", "INVALID_PASSWORD", "INVALID_PARAMETER", "REGISTRATION_FAILED",
   "INVALID_CREDENTIALS", "USER_NOT_FOUND", "USER_NOT_CONFIRMED",
   "PASSWORD_RESET_REQUIRED", "AUTH_FAILED", "INVALID_REFRESH_TOKEN",
   "REFRESH_FAILED", "INTERNAL_ERROR"]

/-- The error code surfaced by a service-layer result dictionary. -/
def surfacedError (r : Bool × PyDict) : String := r.2.error.getD ""

/-- The profile row an onboarding call starts from: the stored row for the
user, or the lazily created default. -/
def profile0 (db : Gen2.Db) (u : Gen2.UserRow) (pid : String) : Gen2.ProfileRow :=
  (db.profiles.find? (fun p => p.user_id == u.id)).getD (Gen2.newProfile pid u.id)

/-! ## Helper lemmas -/

/-- A SHA-256 digest is never the empty byte sequence. -/
theorem sha256_ne_nil (msg : List Nat) : sha256 msg ≠ [] := by
  intro h
  simp [sha256, digestBytes, wordBytesBE] at h

/-- An HMAC-SHA256 digest is never the empty byte sequence. -/
theorem hmacSha256_ne_nil (key msg : List Nat) : hmacSha256 key msg ≠ [] := by
  simp only [hmacSha256]
  exact sha256_ne_nil _

/-- Base64 of a nonempty byte sequence has at least one character. -/
theorem b64encodeChars_ne_nil {l : List Nat} (h : l ≠ []) : b64encodeChars l ≠ [] := by
  match l with
  | [] => exact absurd rfl h
  | [a] => simp [b64encodeChars]
  | [a, b] => simp [b64encodeChars]
  | a :: b :: c :: rest => simp [b64encodeChars]

/-- Base64 of a nonempty byte sequence is a nonempty string. -/
theorem b64encode_ne_empty {l : List Nat} (h : l ≠ []) : b64encode l ≠ "" := by
  intro hs
  exact b64encodeChars_ne_nil h (congrArg String.data hs)

/-- A computed secret hash is never the empty string (so Python truthiness
of the computed hash never drops it). -/
theorem specSecretHash_ne_empty (secret username clientId : String) :
    specSecretHash secret username clientId ≠ "" :=
  b64encode_ne_empty (hmacSha256_ne_nil _ _)

/-- `_get_secret_hash` returns `None` when no (truthy) client secret is
configured. -/
theorem secretHashPy_none (cfg : CognitoConfig) (u : String)
    (h : pyTruthyOptStr cfg.client_secret = false) : secretHashPy cfg u = none := by
  rcases hc : cfg.client_secret with _ | s
  · simp [secretHashPy, hc]
  · rw [hc] at h
    simp only [pyTruthyOptStr, bne_eq_false_iff_eq] at h
    simp [secretHashPy, hc, h]

/-- `_get_secret_hash` computes the specification formula when a client
secret is configured. -/
theorem secretHashPy_some (cfg : CognitoConfig) (s u : String)
    (hc : cfg.client_secret = some s) (hs : s ≠ "") :
    secretHashPy cfg u = some (specSecretHash s u cfg.client_id) := by
  simp [secretHashPy, hc, hs, specSecretHash]

/-- `find?` over a concatenation whose first part has no hit. -/
theorem find?_append_none {α : Type} (p : α → Bool) {l1 : List α} (l2 : List α)
    (h : l1.find? p = none) : (l1 ++ l2).find? p = l2.find? p := by
  induction l1 with
  | nil => simp
  | cons a rest ih =>
      rw [List.cons_append]
      by_cases ha : p a
      · rw [List.find?_cons_of_pos _ ha] at h
        cases h
      · rw [List.find?_cons_of_neg _ ha] at h
        rw [List.find?_cons_of_neg _ ha]
        exact ih h

/-- Replacing every row matching a user id and then searching for that
user id finds the replacement, provided some row matched. -/
theorem find?_map_replace (l : List Gen2.ProfileRow) (uid : String)
    (pnew : Gen2.ProfileRow) (h : pnew.user_id = uid)
    (hex : (l.find? (fun q => q.user_id == uid)).isSome = true) :
    (l.map (fun q => if q.user_id == uid then pnew else q)).find?
        (fun q => q.user_id == uid) = some pnew := by
  induction l with
  | nil => simp at hex
  | cons a rest ih =>
      by_cases ha : (a.user_id == uid) = true
      · simp only [List.map_cons, if_pos ha]
        rw [List.find?_cons_of_pos]
        simp [h]
      · rw [List.find?_cons_of_neg _ (by simpa using ha)] at hex
        simp only [List.map_cons, if_neg ha]
        rw [List.find?_cons_of_neg _ (by simpa using ha)]
        exact ih hex

/-- The starting profile row of an onboarding call belongs to the user. -/
theorem profile0_user_id (db : Gen2.Db) (u : Gen2.UserRow) (pid : String) :
    (profile0 db u pid).user_id = u.id := by
  unfold profile0
  cases hf : db.profiles.find? (fun p => p.user_id == u.id) with
  | none => rfl
  | some p =>
      have hp := List.find?_some hf
      simp only [Option.getD_some]
      exact eq_of_beq hp

/-- The written profile row keeps the user id of the row it updates. -/
theorem finalProfile_user_id (p : Gen2.ProfileRow) (r : Gen2.UserProfileUpdateRequest) :
    (Gen2.finalProfile p r).user_id = p.user_id := rfl

/-- One successful onboarding call, written out: under a verified token,
a matching user and successful commits, the route answers with the
updated profile and replaces (or appends) the user's profile row. -/
theorem onboard_step (header : Option (String × String))
    (verify : ProviderCall Gen2.GetUserResponse) (req : Gen2.UserProfileUpdateRequest)
    (db : Gen2.Db) (pid creds : String) (cu : Gen2.CurrentUser) (u : Gen2.UserRow)
    (hb : Gen2.httpBearer header = .ok creds)
    (hv : Gen2.get_current_user verify = .ok cu)
    (hu : db.users.find? (fun r => some r.cognito_id == cu.sub) = some u) :
    Gen2.complete_onboarding header verify req db pid true true =
      (.ok (Gen2.mkProfileResponse u (Gen2.finalProfile (profile0 db u pid) req)),
       { users := db.users,
         profiles :=
           (db.profiles ++
             (if (db.profiles.find? (fun p => p.user_id == u.id)).isSome then []
              else [Gen2.newProfile pid u.id])).map
             (fun q => if q.user_id == u.id
                       then Gen2.finalProfile (profile0 db u pid) req else q) }) := by
  simp only [Gen2.complete_onboarding, hb, hv, hu]
  cases hf : db.profiles.find? (fun p => p.user_id == u.id) with
  | none => simp [hf, profile0]
  | some p => simp [hf, profile0]

/-- After a successful onboarding call, the search for the user's profile
row finds exactly the written row. -/
theorem profiles_find_after (db : Gen2.Db) (u : Gen2.UserRow) (pid : String)
    (fp : Gen2.ProfileRow) (hfp : fp.user_id = u.id) :
    ((db.profiles ++
        (if (db.profiles.find? (fun p => p.user_id == u.id)).isSome then []
         else [Gen2.newProfile pid u.id])).map
        (fun q => if q.user_id == u.id then fp else q)).find?
      (fun p => p.user_id == u.id) = some fp := by
  cases hf : db.profiles.find? (fun p => p.user_id == u.id) with
  | some p =>
      apply find?_map_replace _ _ _ hfp
      simp [hf]
  | none =>
      apply find?_map_replace _ _ _ hfp
      simp [hf, find?_append_none _ _ hf, Gen2.newProfile]

/-! ## Claim theorems -/

/-- C1 (counterexample): in the `src/backend/app` login route, a provider
secondary challenge is NOT returned as a 202 with the challenge payload:
the falsy service result falls into the generic failure branch and the
route raises 401, discarding the challenge name and session. -/
theorem c1_counterexample :
    Gen2.login cfg0 { email := "john@example.com", password := "Valid123!" }
        (fun _ => .ok { ChallengeName := some "SMS_MFA", Session := some "sess-1" })
        emptyDb2 =
      (.error { status := 401, detail := "Authentication failed" }, emptyDb2) := rfl

/-- C1 (amended): in the `src/src` login route, every provider response
demanding a (truthy) secondary challenge yields the 202 Accepted
`JSONResponse` carrying the challenge name and session — a non-error,
non-token outcome — and leaves the local store untouched. -/
theorem c1_challenge_202 (cfg : CognitoConfig) (req : UserLoginRequest)
    (cn : String) (sess : Option String) (ar : Option AuthenticationResult)
    (db : Gen1.Db) (now : Nat) (llCommitOk : Bool) (hcn : cn ≠ "") :
    Gen1.login cfg req
        (fun _ => .ok { ChallengeName := some cn, Session := sess,
                        AuthenticationResult := ar }) db now llCommitOk =
      (.accepted (some cn) sess (some "Authentication challenge required"), db) := by
  have h : ((cn != "") = true) := bne_iff_ne.mpr hcn
  simp [Gen1.login, Gen1.authenticate_user, pyTruthyOptStr, h]

/-- C1 (witness): a concrete SMS-MFA challenge produces the 202 payload. -/
theorem c1_witness :
    Gen1.login cfg0 { email := "john@example.com", password := "Valid123!" }
        (fun _ => .ok { ChallengeName := some "SMS_MFA", Session := some "sess-1" })
        [] 0 true =
      (.accepted (some "SMS_MFA") (some "sess-1")
        (some "Authentication challenge required"), []) :=
  c1_challenge_202 cfg0 _ "SMS_MFA" (some "sess-1") none [] 0 true (by decide)

/-- C2 (counterexample): in the `src/backend/app` register route, a failed
local-store commit after provider success is NOT swallowed: the generic
exception handler surfaces it as a 500 error response. -/
theorem c2_counterexample :
    Gen2.register cfg0
        { email := "john@example.com", password := "Valid123!", username := "john" }
        (fun _ => .ok { UserSub := "sub-123" }) emptyDb2 "u-1" "p-1" 0 false true =
      (.error { status := 500, detail := "An error occurred during registration" },
        emptyDb2) := rfl

/-- C2 (amended): in the `src/src` register route, once the provider
registration succeeds the 201 success payload (provider subject id as
user_id, request email and username, timestamp) is returned to the caller
for every local-store outcome — commit success, integrity violation,
database error or unexpected exception alike. -/
theorem c2_register_availability (cfg : CognitoConfig) (req : UserRegistrationRequest)
    (resp : SignUpResponse) (db : Gen1.Db) (dbOutcome : Gen1.DbOutcome)
    (newId : String) (now : Nat) :
    (Gen1.register cfg req (fun _ => .ok resp) db dbOutcome newId now).1 =
      .created { user_id := resp.UserSub, email := req.email, username := req.username,
                 created_at := now } := rfl

/-- C3 (counterexample): the `src/backend/app` gateway returns the
provider error code verbatim — `UsernameExistsException` is surfaced
as-is and is not a member of the domain taxonomy. -/
theorem c3_counterexample :
    Gen2.register_user cfg0 "john@example.com" "Valid123!" "john" none none
        (fun _ => .clientError "UsernameExistsException" "User already exists") =
      (false, { error := some "UsernameExistsException",
                message := some "User already exists" }) ∧
    "UsernameExistsException" ∉ domainTaxonomy :=
  ⟨rfl, by decide⟩

/-- C3 (amended): the `src/src` gateway maps every provider error — for
register, authenticate and refresh, whatever the `ClientError` code or
any other exception — onto the enumerated domain taxonomy, with
unrecognized codes collapsing to the per-operation catch-all. -/
theorem c3_taxonomy :
    (∀ (cfg : CognitoConfig) (e p un : String) (fn ln : Option String) (code msg : String),
        surfacedError (Gen1.register_user cfg e p un fn ln
            (fun _ => .clientError code msg)) ∈ domainTaxonomy ∧
        (code ∉ (["UsernameExistsException", "InvalidPasswordException",
                  "InvalidParameterException"] : List String) →
          surfacedError (Gen1.register_user cfg e p un fn ln
            (fun _ => .clientError code msg)) = "REGISTRATION_FAILED")) ∧
    (∀ (cfg : CognitoConfig) (e p code msg : String),
        surfacedError (Gen1.authenticate_user cfg e p
            (fun _ => .clientError code msg)) ∈ domainTaxonomy ∧
        (code ∉ (["NotAuthorizedException", "UserNotFoundException",
                  "UserNotConfirmedException", "PasswordResetRequiredException"] : List String) →
          surfacedError (Gen1.authenticate_user cfg e p
            (fun _ => .clientError code msg)) = "AUTH_FAILED")) ∧
    (∀ (cfg : CognitoConfig) (rt code msg : String),
        surfacedError (Gen1.refresh_tokens cfg rt
            (fun _ => .clientError code msg)) ∈ domainTaxonomy ∧
        (code ≠ "NotAuthorizedException" →
          surfacedError (Gen1.refresh_tokens cfg rt
            (fun _ => .clientError code msg)) = "REFRESH_FAILED")) ∧
    (∀ (cfg : CognitoConfig) (e p un : String) (fn ln : Option String) (msg : String),
        surfacedError (Gen1.register_user cfg e p un fn ln (fun _ => .exn msg)) =
          "INTERNAL_ERROR") ∧
    (∀ (cfg : CognitoConfig) (e p msg : String),
        surfacedError (Gen1.authenticate_user cfg e p (fun _ => .exn msg)) =
          "INTERNAL_ERROR") ∧
    (∀ (cfg : CognitoConfig) (rt msg : String),
        surfacedError (Gen1.refresh_tokens cfg rt (fun _ => .exn msg)) =
          "INTERNAL_ERROR") ∧
    "INTERNAL_ERROR" ∈ domainTaxonomy := by
  refine ⟨?_, ?_, ?_, fun _ _ _ _ _ _ _ => rfl, fun _ _ _ _ => rfl,
    fun _ _ _ => rfl, by decide⟩
  · intro cfg e p un fn ln code msg
    simp only [Gen1.register_user, surfacedError]
    split_ifs with h1 h2 h3
    · exact ⟨by simp [domainTaxonomy], fun hn => absurd (by simp [h1]) hn⟩
    · exact ⟨by simp [domainTaxonomy], fun hn => absurd (by simp [h2]) hn⟩
    · exact ⟨by simp [domainTaxonomy], fun hn => absurd (by simp [h3]) hn⟩
    · exact ⟨by simp [domainTaxonomy], fun _ => rfl⟩
  · intro cfg e p code msg
    simp only [Gen1.authenticate_user, surfacedError]
    split_ifs with h1 h2 h3 h4
    · exact ⟨by simp [domainTaxonomy], fun hn => absurd (by simp [h1]) hn⟩
    · exact ⟨by simp [domainTaxonomy], fun hn => absurd (by simp [h2]) hn⟩
    · exact ⟨by simp [domainTaxonomy], fun hn => absurd (by simp [h3]) hn⟩
    · exact ⟨by simp [domainTaxonomy], fun hn => absurd (by simp [h4]) hn⟩
    · exact ⟨by simp [domainTaxonomy], fun _ => rfl⟩
  · intro cfg rt code msg
    simp only [Gen1.refresh_tokens, surfacedError]
    split_ifs with h1
    · exact ⟨by simp [domainTaxonomy], fun hn => absurd h1 hn⟩
    · exact ⟨by simp [domainTaxonomy], fun _ => rfl⟩

/-- C3 (witness): an unrecognized provider code maps to the catch-all,
which belongs to the taxonomy. -/
theorem c3_witness :
    surfacedError (Gen1.register_user cfg0 "john@example.com" "Valid123!" "john" none none
        (fun _ => .clientError "BrandNewException" "m")) = "REGISTRATION_FAILED" ∧
    surfacedError (Gen1.register_user cfg0 "john@example.com" "Valid123!" "john" none none
        (fun _ => .clientError "BrandNewException" "m")) ∈ domainTaxonomy :=
  ⟨(c3_taxonomy.1 cfg0 "john@example.com" "Valid123!" "john" none none
      "BrandNewException" "m").2 (by decide),
   (c3_taxonomy.1 cfg0 "john@example.com" "Valid123!" "john" none none
      "BrandNewException" "m").1⟩

/-- C6: under a verified bearer token whose subject matches a local user
and successful commits, onboarding completion answers 200 with the
updated profile; the user table is untouched; the stored profile row is
the partial update of the prior row (or of a lazily created default row):
each absent request field keeps its previous value, each present field is
written, and `has_completed_onboarding` is set; and two consecutive calls
carrying only `age = 25` leave the initial goals and equipment unchanged
with the flag true and age 25. -/
theorem c6_partial_update (header : Option (String × String))
    (verify : ProviderCall Gen2.GetUserResponse) (req : Gen2.UserProfileUpdateRequest)
    (db : Gen2.Db) (pid creds : String) (cu : Gen2.CurrentUser) (u : Gen2.UserRow)
    (hb : Gen2.httpBearer header = .ok creds)
    (hv : Gen2.get_current_user verify = .ok cu)
    (hu : db.users.find? (fun r => some r.cognito_id == cu.sub) = some u) :
    (Gen2.complete_onboarding header verify req db pid true true).1 =
      .ok (Gen2.mkProfileResponse u (Gen2.finalProfile (profile0 db u pid) req)) ∧
    (Gen2.complete_onboarding header verify req db pid true true).2.users = db.users ∧
    (Gen2.complete_onboarding header verify req db pid true true).2.profiles.find?
        (fun p => p.user_id == u.id) =
      some (Gen2.finalProfile (profile0 db u pid) req) ∧
    (Gen2.finalProfile (profile0 db u pid) req).has_completed_onboarding = true ∧
    (req.fitness_level = none → (Gen2.finalProfile (profile0 db u pid) req).fitness_level
        = (profile0 db u pid).fitness_level) ∧
    (∀ v, req.fitness_level = some v →
        (Gen2.finalProfile (profile0 db u pid) req).fitness_level = v) ∧
    (req.goals = none → (Gen2.finalProfile (profile0 db u pid) req).goals
        = (profile0 db u pid).goals) ∧
    (∀ v, req.goals = some v → (Gen2.finalProfile (profile0 db u pid) req).goals = v) ∧
    (req.equipment = none → (Gen2.finalProfile (profile0 db u pid) req).equipment
        = (profile0 db u pid).equipment) ∧
    (∀ v, req.equipment = some v →
        (Gen2.finalProfile (profile0 db u pid) req).equipment = v) ∧
    (req.age = none → (Gen2.finalProfile (profile0 db u pid) req).age
        = (profile0 db u pid).age) ∧
    (∀ v, req.age = some v → (Gen2.finalProfile (profile0 db u pid) req).age = v) ∧
    (req.height_cm = none → (Gen2.finalProfile (profile0 db u pid) req).height_cm
        = (profile0 db u pid).height_cm) ∧
    (∀ v, req.height_cm = some v →
        (Gen2.finalProfile (profile0 db u pid) req).height_cm = v) ∧
    (req.weight_kg = none → (Gen2.finalProfile (profile0 db u pid) req).weight_kg
        = (profile0 db u pid).weight_kg) ∧
    (∀ v, req.weight_kg = some v →
        (Gen2.finalProfile (profile0 db u pid) req).weight_kg = v) ∧
    (req.preferred_workout_time = none →
        (Gen2.finalProfile (profile0 db u pid) req).preferred_workout_time
          = (profile0 db u pid).preferred_workout_time) ∧
    (∀ v, req.preferred_workout_time = some v →
        (Gen2.finalProfile (profile0 db u pid) req).preferred_workout_time = v) ∧
    (req.injury_notes = none → (Gen2.finalProfile (profile0 db u pid) req).injury_notes
        = (profile0 db u pid).injury_notes) ∧
    (∀ v, req.injury_notes = some v →
        (Gen2.finalProfile (profile0 db u pid) req).injury_notes = v) ∧
    (((Gen2.complete_onboarding header verify (ageOnly 25)
          (Gen2.complete_onboarding header verify (ageOnly 25) db pid true true).2
          pid true true).2.profiles.find? (fun p => p.user_id == u.id)).map
        (fun p => (p.goals, p.equipment, p.age, p.has_completed_onboarding)) =
      some ((profile0 db u pid).goals, (profile0 db u pid).equipment,
        some (25 : Int), true)) := by
  have hstep := onboard_step header verify req db pid creds cu u hb hv hu
  have hfpid : (Gen2.finalProfile (profile0 db u pid) req).user_id = u.id := by
    rw [finalProfile_user_id]
    exact profile0_user_id db u pid
  have hstep1 := onboard_step header verify (ageOnly 25) db pid creds cu u hb hv hu
  have hfpid1 : (Gen2.finalProfile (profile0 db u pid) (ageOnly 25)).user_id = u.id := by
    rw [finalProfile_user_id]
    exact profile0_user_id db u pid
  have hu1 : (Gen2.complete_onboarding header verify (ageOnly 25) db pid
      true true).2.users.find? (fun r => some r.cognito_id == cu.sub) = some u := by
    rw [hstep1]
    exact hu
  have hstep2 := onboard_step header verify (ageOnly 25)
    (Gen2.complete_onboarding header verify (ageOnly 25) db pid true true).2 pid
    creds cu u hb hv hu1
  have hfind1 : (Gen2.complete_onboarding header verify (ageOnly 25) db pid
      true true).2.profiles.find? (fun p => p.user_id == u.id) =
      some (Gen2.finalProfile (profile0 db u pid) (ageOnly 25)) := by
    rw [hstep1]
    exact profiles_find_after db u pid _ hfpid1
  have hp1 : profile0 (Gen2.complete_onboarding header verify (ageOnly 25) db pid
      true true).2 u pid = Gen2.finalProfile (profile0 db u pid) (ageOnly 25) := by
    unfold profile0
    rw [hfind1]
    rfl
  have hfpid2 : (Gen2.finalProfile (profile0 (Gen2.complete_onboarding header verify
      (ageOnly 25) db pid true true).2 u pid) (ageOnly 25)).user_id = u.id := by
    rw [finalProfile_user_id, hp1, finalProfile_user_id]
    exact profile0_user_id db u pid
  refine ⟨by rw [hstep], by rw [hstep], ?_, rfl, ?_, ?_, ?_, ?_, ?_, ?_, ?_, ?_, ?_,
    ?_, ?_, ?_, ?_, ?_, ?_, ?_, ?_⟩
  · rw [hstep]
    exact profiles_find_after db u pid _ hfpid
  · intro h
    simp [Gen2.finalProfile, Gen2.applyUpdate, h]
  · intro v h
    simp [Gen2.finalProfile, Gen2.applyUpdate, h]
  · intro h
    simp [Gen2.finalProfile, Gen2.applyUpdate, h]
  · intro v h
    simp [Gen2.finalProfile, Gen2.applyUpdate, h]
  · intro h
    simp [Gen2.finalProfile, Gen2.applyUpdate, h]
  · intro v h
    simp [Gen2.finalProfile, Gen2.applyUpdate, h]
  · intro h
    simp [Gen2.finalProfile, Gen2.applyUpdate, h]
  · intro v h
    simp [Gen2.finalProfile, Gen2.applyUpdate, h]
  · intro h
    simp [Gen2.finalProfile, Gen2.applyUpdate, h]
  · intro v h
    simp [Gen2.finalProfile, Gen2.applyUpdate, h]
  · intro h
    simp [Gen2.finalProfile, Gen2.applyUpdate, h]
  · intro v h
    simp [Gen2.finalProfile, Gen2.applyUpdate, h]
  · intro h
    simp [Gen2.finalProfile, Gen2.applyUpdate, h]
  · intro v h
    simp [Gen2.finalProfile, Gen2.applyUpdate, h]
  · intro h
    simp [Gen2.finalProfile, Gen2.applyUpdate, h]
  · intro v h
    simp [Gen2.finalProfile, Gen2.applyUpdate, h]
  · rw [hstep2]
    rw [show ((Gen2.mkProfileResponse u (Gen2.finalProfile (profile0
        (Gen2.complete_onboarding header verify (ageOnly 25) db pid true true).2 u pid)
        (ageOnly 25))) : Gen2.UserProfileResponse) = Gen2.mkProfileResponse u
        (Gen2.finalProfile (profile0 (Gen2.complete_onboarding header verify (ageOnly 25)
        db pid true true).2 u pid) (ageOnly 25)) from rfl]
    rw [profiles_find_after _ u pid _ hfpid2]
    rw [hp1]
    rfl

/-- C6 (witness): a concrete verified call against a store holding the
user and no profile. -/
theorem c6_witness :
    (Gen2.complete_onboarding (some ("Bearer", "tok-a"))
        (.ok { Username := "john", UserAttributes := [("sub", "sub-123")] })
        (ageOnly 25) demoDb2 "p-1" true true).1 =
      .ok (Gen2.mkProfileResponse demoUser2
        (Gen2.finalProfile (profile0 demoDb2 demoUser2 "p-1") (ageOnly 25))) :=
  (c6_partial_update (some ("Bearer", "tok-a"))
    (.ok { Username := "john", UserAttributes := [("sub", "sub-123")] })
    (ageOnly 25) demoDb2 "p-1" "tok-a"
    { username := "john", attributes := [("sub", "sub-123")], sub := some "sub-123" }
    demoUser2 rfl rfl rfl).1

/-- C10: a verified token whose subject matches no local user makes the
onboarding route fail with 404 `User not found` and leaves the store
unchanged — no User or UserProfile row is created. -/
theorem c10_no_user_404 (header : Option (String × String))
    (verify : ProviderCall Gen2.GetUserResponse) (req : Gen2.UserProfileUpdateRequest)
    (db : Gen2.Db) (pid creds : String) (cu : Gen2.CurrentUser) (ok1 ok2 : Bool)
    (hb : Gen2.httpBearer header = .ok creds)
    (hv : Gen2.get_current_user verify = .ok cu)
    (hu : db.users.find? (fun r => some r.cognito_id == cu.sub) = none) :
    Gen2.complete_onboarding header verify req db pid ok1 ok2 =
      (.error { status := 404, detail := "User not found" }, db) := by
  simp [Gen2.complete_onboarding, hb, hv, hu]

/-- C10 (witness): a verified subject absent from an empty store. -/
theorem c10_witness :
    Gen2.complete_onboarding (some ("Bearer", "tok-a"))
        (.ok { Username := "ghost", UserAttributes := [("sub", "sub-404")] })
        noUpdate emptyDb2 "p-1" true true =
      (.error { status := 404, detail := "User not found" }, emptyDb2) :=
  c10_no_user_404 (some ("Bearer", "tok-a"))
    (.ok { Username := "ghost", UserAttributes := [("sub", "sub-404")] })
    noUpdate emptyDb2 "p-1" "tok-a"
    { username := "ghost", attributes := [("sub", "sub-404")], sub := some "sub-404" }
    true true rfl rfl rfl

/-- C7: both generations of the refresh flow return the input refresh
token verbatim in the bundle, with all other fields taken from the
provider response — for every provider response, even one that does carry
a `RefreshToken`. -/
theorem c7_refresh_roundtrip :
    (∀ (cfg : CognitoConfig) (rt : String) (cn sess : Option String)
        (ar : AuthenticationResult),
        Gen1.refresh_token_route cfg ⟨rt⟩
            (fun _ => .ok { ChallengeName := cn, Session := sess,
                            AuthenticationResult := some ar }) =
          .okTok { access_token := ar.AccessToken, id_token := ar.IdToken,
                   refresh_token := rt, expires_in := ar.ExpiresIn,
                   token_type := ar.TokenType }) ∧
    (∀ (cfg : CognitoConfig) (rt : String) (cn sess : Option String)
        (ar : AuthenticationResult),
        Gen2.refresh_token_route cfg ⟨rt⟩
            (fun _ => .ok { ChallengeName := cn, Session := sess,
                            AuthenticationResult := some ar }) =
          .ok { access_token := ar.AccessToken, id_token := ar.IdToken,
                refresh_token := rt, expires_in := ar.ExpiresIn,
                token_type := ar.TokenType }) :=
  ⟨fun _ _ _ _ _ => rfl, fun _ _ _ _ _ => rfl⟩

/-- C8: with a local user row matching the email, a provider-successful
login through the `src/backend/app` route returns 500 — the module never
imports `datetime`, so the opportunistic `last_login` update raises
`NameError` and the generic handler surfaces it — while the identical
request against a store without the row returns the token bundle. -/
theorem c8_login_name_error :
    Gen2.login cfg0 { email := "john@example.com", password := "Valid123!" }
        (fun _ => .ok { AuthenticationResult := some demoTokens }) demoDb2 =
      (.error { status := 500, detail := "An error occurred during login" }, demoDb2) ∧
    Gen2.login cfg0 { email := "john@example.com", password := "Valid123!" }
        (fun _ => .ok { AuthenticationResult := some demoTokens }) emptyDb2 =
      (.ok { access_token := "acc", id_token := "idt", refresh_token := "ref",
             expires_in := 3600, token_type := "Bearer" }, emptyDb2) :=
  ⟨rfl, rfl⟩

/-- C4: with a client secret configured, every credential operation
attaches a secret hash equal to the Base64 HMAC-SHA256, keyed by the
secret, of the operation's username string concatenated with the client
id (the email for register and authenticate, the refresh token for
refresh); with no secret configured no hash is computed or attached, and
the operation still proceeds to its normal result. -/
theorem c4_secret_hash :
    (∀ (cfg : CognitoConfig) (u : String),
        pyTruthyOptStr cfg.client_secret = false → secretHashPy cfg u = none) ∧
    (∀ (cfg : CognitoConfig) (s u : String), cfg.client_secret = some s → s ≠ "" →
        secretHashPy cfg u = some (specSecretHash s u cfg.client_id)) ∧
    (∀ (cfg : CognitoConfig) (s e p un : String) (fn ln : Option String),
        cfg.client_secret = some s → s ≠ "" →
        (buildSignUpParams cfg e p un fn ln).SecretHash =
          some (specSecretHash s e cfg.client_id)) ∧
    (∀ (cfg : CognitoConfig) (e p un : String) (fn ln : Option String),
        pyTruthyOptStr cfg.client_secret = false →
        (buildSignUpParams cfg e p un fn ln).SecretHash = none) ∧
    (∀ (cfg : CognitoConfig) (s e p : String), cfg.client_secret = some s → s ≠ "" →
        authParam (buildPasswordAuthParams cfg e p) "SECRET_HASH" =
          some (specSecretHash s e cfg.client_id)) ∧
    (∀ (cfg : CognitoConfig) (e p : String), pyTruthyOptStr cfg.client_secret = false →
        authParam (buildPasswordAuthParams cfg e p) "SECRET_HASH" = none) ∧
    (∀ (cfg : CognitoConfig) (s rt : String), cfg.client_secret = some s → s ≠ "" →
        authParam (buildRefreshParams cfg rt) "SECRET_HASH" =
          some (specSecretHash s rt cfg.client_id)) ∧
    (∀ (cfg : CognitoConfig) (rt : String), pyTruthyOptStr cfg.client_secret = false →
        authParam (buildRefreshParams cfg rt) "SECRET_HASH" = none) ∧
    (∀ (cfg : CognitoConfig) (e p un : String) (fn ln : Option String)
        (resp : SignUpResponse),
        Gen2.register_user cfg e p un fn ln (fun _ => .ok resp) =
          (true, { user_sub := some resp.UserSub,
                   user_confirmed := some (resp.UserConfirmed.getD false) })) := by
  refine ⟨secretHashPy_none, secretHashPy_some, ?_, ?_, ?_, ?_, ?_, ?_,
    fun _ _ _ _ _ _ _ => rfl⟩
  · intro cfg s e p un fn ln hc hs
    have hne := specSecretHash_ne_empty s e cfg.client_id
    simp [buildSignUpParams, secretHashPy_some cfg s e hc hs, pyTruthyOptStr, hne]
  · intro cfg e p un fn ln h
    simp [buildSignUpParams, secretHashPy_none cfg e h, pyTruthyOptStr]
  · intro cfg s e p hc hs
    have hne := specSecretHash_ne_empty s e cfg.client_id
    simp [buildPasswordAuthParams, authParam, secretHashPy_some cfg s e hc hs,
      pyTruthyOptStr, hne, List.find?]
  · intro cfg e p h
    simp [buildPasswordAuthParams, authParam, secretHashPy_none cfg e h,
      pyTruthyOptStr, List.find?]
  · intro cfg s rt hc hs
    have ht : pyTruthyOptStr cfg.client_secret = true := by
      simp [pyTruthyOptStr, hc, hs]
    simp [buildRefreshParams, authParam, ht, secretHashPy_some cfg s rt hc hs,
      List.find?]
  · intro cfg rt h
    simp [buildRefreshParams, authParam, h, List.find?]

/-- C4 (witness): concrete configured and unconfigured deployments. -/
theorem c4_witness :
    (buildSignUpParams cfgS "john@example.com" "Valid123!" "john" none none).SecretHash =
        some (specSecretHash "topsecret" "john@example.com" cfgS.client_id) ∧
    authParam (buildRefreshParams cfgS "refresh-tok") "SECRET_HASH" =
        some (specSecretHash "topsecret" "refresh-tok" cfgS.client_id) ∧
    authParam (buildPasswordAuthParams cfg0 "john@example.com" "Valid123!")
        "SECRET_HASH" = none :=
  ⟨c4_secret_hash.2.2.1 cfgS "topsecret" "john@example.com" "Valid123!" "john"
      none none rfl (by decide),
   c4_secret_hash.2.2.2.2.2.2.1 cfgS "topsecret" "refresh-tok" rfl (by decide),
   c4_secret_hash.2.2.2.2.2.1 cfg0 "john@example.com" "Valid123!" rfl⟩

/-- C5 (counterexample): the `src/backend/app` federated-login user check
compares the Google-reported email verbatim: with the row stored under
the lower-cased email, a mixed-case email from the provider misses it and
a second local user is created. -/
theorem c5_counterexample :
    (Gen2.google_auth cfg0 "gtok"
        (.ok { email := "John@Example.com", sub := "gsub-1" })
        (fun _ => .ok { AuthenticationResult := some demoTokens })
        demoDb2 "u-2" "p-2" 7 true true).2.users =
      demoDb2.users ++
        [{ id := "u-2", cognito_id := "gsub-1", email := "John@Example.com",
           username := "John", first_name := some "", last_name := some "",
           created_at := 7, updated_at := 7 }] ∧
    demoDb2.users.map (fun u => u.email) = [pyLower "John@Example.com"] :=
  ⟨rfl, by decide⟩

/-- C5 (amended): the `src/src` user directory lower-cases email and
username before storage, and every email lookup (get, last-login update,
delete) compares the lower-cased argument, so lookups are insensitive to
the caller's casing; the username `Valid_User-1` passes validation and is
stored as `valid_user-1`.  (The `src/backend/app` handlers instead
compare the email verbatim, per the counterexample.) -/
theorem c5_lowercase_directory :
    (∀ (db : Gen1.Db) (cid e un : String) (fn ln : Option String) (mb : Option Bool)
        (newId : String) (now : Nat),
        (Gen1.create_user db .ok cid e un fn ln mb newId now).2 =
          db ++ [{ id := newId, cognito_id := cid, email := pyLower e,
                   username := pyLower un, first_name := fn, last_name := ln,
                   created_at := now, updated_at := now, last_login := none,
                   meta := mb }]) ∧
    (∀ (db : Gen1.Db) (e1 e2 : String), pyLower e1 = pyLower e2 →
        Gen1.get_user_by_email db e1 = Gen1.get_user_by_email db e2) ∧
    (∀ (db : Gen1.Db) (e1 e2 : String) (now : Nat) (ok : Bool), pyLower e1 = pyLower e2 →
        Gen1.update_last_login db e1 now ok = Gen1.update_last_login db e2 now ok) ∧
    (∀ (db : Gen1.Db) (e1 e2 : String) (ok : Bool), pyLower e1 = pyLower e2 →
        Gen1.delete_user db e1 ok = Gen1.delete_user db e2 ok) ∧
    (∀ (cid e un : String) (fn ln : Option String) (mb : Option Bool)
        (newId : String) (now : Nat) (e' : String), pyLower e' = pyLower e →
        Gen1.get_user_by_email
            (Gen1.create_user [] .ok cid e un fn ln mb newId now).2 e' =
          some { id := newId, cognito_id := cid, email := pyLower e,
                 username := pyLower un, first_name := fn, last_name := ln,
                 created_at := now, updated_at := now, last_login := none,
                 meta := mb }) ∧
    validate_username "Valid_User-1" = some "valid_user-1" := by
  refine ⟨fun _ _ _ _ _ _ _ _ _ => rfl, ?_, ?_, ?_, ?_, by decide⟩
  · intro db e1 e2 h
    simp only [Gen1.get_user_by_email, h]
  · intro db e1 e2 now ok h
    simp only [Gen1.update_last_login, h]
  · intro db e1 e2 ok h
    simp only [Gen1.delete_user, h]
  · intro cid e un fn ln mb newId now e' h
    simp [Gen1.create_user, Gen1.get_user_by_email, h, List.find?]

/-- C5 (witness): a differently cased variant of the stored email
retrieves the created row. -/
theorem c5_witness :
    pyLower "John@Example.com" = pyLower "john@example.com" ∧
    Gen1.get_user_by_email
        (Gen1.create_user [] .ok "sub-123" "john@example.com" "Valid_User-1"
          none none none "u-1" 0).2 "John@Example.com" =
      some { id := "u-1", cognito_id := "sub-123", email := "john@example.com",
             username := "valid_user-1", first_name := none, last_name := none,
             created_at := 0, updated_at := 0, last_login := none, meta := none } :=
  ⟨by decide,
   c5_lowercase_directory.2.2.2.2.1 "sub-123" "john@example.com" "Valid_User-1"
     none none none "u-1" 0 "John@Example.com" (by decide)⟩

/-- C9 (counterexample): a request with no bearer token is rejected by the
framework's bearer extractor with 403 `Not authenticated`, while a
request whose token fails provider verification gets the 401
`Could not validate credentials` — the two rejection outcomes differ, so
the missing-token case is not the same response. -/
theorem c9_counterexample :
    Gen2.complete_onboarding none (.clientError "NotAuthorizedException" "expired")
        noUpdate emptyDb2 "p-1" true true =
      (.error { status := 403, detail := "Not authenticated" }, emptyDb2) ∧
    Gen2.complete_onboarding (some ("Bearer", "garbage"))
        (.clientError "NotAuthorizedException" "expired") noUpdate emptyDb2 "p-1"
        true true =
      (.error { status := 401, detail := "Could not validate credentials",
                headers := [("WWW-Authenticate", "Bearer")] }, emptyDb2) ∧
    ({ status := 403, detail := "Not authenticated" } : Gen2.HttpError) ≠
      { status := 401, detail := "Could not validate credentials",
        headers := [("WWW-Authenticate", "Bearer")] } :=
  ⟨rfl, rfl, by decide⟩

/-- C9 (amended): any request presenting a bearer token whose provider
verification fails — for every provider error code or message, and for
non-provider exceptions alike — receives the identical 401
`Could not validate credentials` response with the provider-specific
error discarded; in particular any two such failures are
indistinguishable. -/
theorem c9_uniform_401 (t c1 m1 c2 m2 : String) (req : Gen2.UserProfileUpdateRequest)
    (db : Gen2.Db) (pid : String) (ok1 ok2 : Bool) (ht : t ≠ "") :
    Gen2.complete_onboarding (some ("Bearer", t)) (.clientError c1 m1) req db pid
        ok1 ok2 =
      (.error { status := 401, detail := "Could not validate credentials",
                headers := [("WWW-Authenticate", "Bearer")] }, db) ∧
    Gen2.complete_onboarding (some ("Bearer", t)) (.exn m1) req db pid ok1 ok2 =
      (.error { status := 401, detail := "Could not validate credentials",
                headers := [("WWW-Authenticate", "Bearer")] }, db) ∧
    Gen2.complete_onboarding (some ("Bearer", t)) (.clientError c1 m1) req db pid
        ok1 ok2 =
      Gen2.complete_onboarding (some ("Bearer", t)) (.clientError c2 m2) req db pid
        ok1 ok2 := by
  have h : ((t == "") = false) := beq_eq_false_iff_ne.mpr ht
  have hbear : pyLower "Bearer" = "bearer" := by decide
  refine ⟨?_, ?_, ?_⟩ <;>
    simp [Gen2.complete_onboarding, Gen2.httpBearer, Gen2.get_current_user,
      Gen2.verify_token, h, hbear]

/-- C9 (witness): two concrete distinct failure reasons produce the same
401 response. -/
theorem c9_witness :
    Gen2.complete_onboarding (some ("Bearer", "tok-a"))
        (.clientError "NotAuthorizedException" "Access Token has expired") noUpdate
        emptyDb2 "p-1" true true =
      (.error { status := 401, detail := "Could not validate credentials",
                headers := [("WWW-Authenticate", "Bearer")] }, emptyDb2) ∧
    Gen2.complete_onboarding (some ("Bearer", "tok-a"))
        (.clientError "NotAuthorizedException" "Access Token has expired") noUpdate
        emptyDb2 "p-1" true true =
      Gen2.complete_onboarding (some ("Bearer", "tok-a"))
        (.clientError "InvalidParameterException" "malformed token") noUpdate
        emptyDb2 "p-1" true true :=
  ⟨(c9_uniform_401 "tok-a" "NotAuthorizedException" "Access Token has expired"
      "InvalidParameterException" "malformed token" noUpdate emptyDb2 "p-1" true true
      (by decide)).1,
   (c9_uniform_401 "tok-a" "NotAuthorizedException" "Access Token has expired"
      "InvalidParameterException" "malformed token" noUpdate emptyDb2 "p-1" true true
      (by decide)).2.2⟩

end FitnessAuth
